import Mathlib

/-!
Verification of the review-workflow controller in src/app.py (patent search
assistant UI). The Python script is shallowly embedded: per-session state is a
record, each button handler becomes a pure state-transition function, and the
extractor collaborator's answer is passed in explicitly as an Except value
(an exception raised by the collaborator propagates out of the handler before
any session-state assignment runs, which the embedding mirrors by returning
the prior state together with the raised error).
-/

namespace PriorArt

/-- Concept matrix produced by the extractor: three free-text fields
(src/app.py lines 10-26 read exactly these keys). -/
structure ConceptMatrix where
  problem_purpose : String
  object_system : String
  environment_field : String
deriving DecidableEq

/-- Seed keywords: the same three category keys, each an ordered list of
keyword strings (src/app.py lines 28-47). -/
structure SeedKeywords where
  problem_purpose : List String
  object_system : List String
  environment_field : List String
deriving DecidableEq

/-- One ranked search result, consumed read-only at src/app.py lines 155-159. -/
structure SearchResult where
  url : String
  user_scenario : Float
  user_problem : Float

/-- The dictionary returned by extractor.extract_keywords. The script reads it
with dict.get, so every key may be absent; absence maps to none here
(src/app.py lines 91-94 and 151). -/
structure ExtractResults where
  concept_matrix : Option ConceptMatrix
  seed_keywords : Option SeedKeywords
  final_url : Option (List SearchResult)

/-- The feedback record stored in st.session_state.feedback: a tagged action,
one of approve (line 112), reject with text (lines 119-122), or edit with the
replacement keywords (lines 144-147). -/
inductive FeedbackAction where
  | approve : FeedbackAction
  | reject (feedback : String) : FeedbackAction
  | edit (edited_keywords : SeedKeywords) : FeedbackAction
deriving DecidableEq

/-- Python-level error raised by an expression in the script. -/
inductive PyError where
  | attributeError : PyError
  | extractionError (msg : String) : PyError
deriving DecidableEq

/-- Session state after init_session_state has run: every key is present, the
nullable ones hold an Option. The extra editing flag is the key set at
src/app.py line 127. -/
structure Session where
  current_state : Option ExtractResults
  concept_matrix : Option ConceptMatrix
  seed_keywords : Option SeedKeywords
  keywords_approved : Bool
  feedback : Option FeedbackAction
  edited_keywords : Option SeedKeywords
  editing : Bool

/-- The freshly initialized session: all nullable fields none,
keywords_approved false (src/app.py lines 49-64). -/
def initSession : Session :=
  { current_state := none
    concept_matrix := none
    seed_keywords := none
    keywords_approved := false
    feedback := none
    edited_keywords := none
    editing := false }

/-! ## Keyword string parsing (src/app.py line 141)

The edit handler runs the comprehension
  [k.strip() for k in new_input.split(",") if k.strip()]
Python str.split on the one-character separator "," and str.strip are modelled
character-by-character below. -/

/-- The whitespace characters removed by Python str.strip (ASCII subset:
space, tab, newline, carriage return, form feed, vertical tab). -/
def isPyWhitespace (c : Char) : Bool :=
  c = ' ' || c = '\t' || c = '\n' || c = '\r' || c = '\x0c' || c = '\x0b'

/-- Python s.split(","): split a character list at every comma; n commas give
n+1 pieces, empty pieces included. -/
def splitComma : List Char → List (List Char)
  | [] => [[]]
  | c :: rest =>
    match splitComma rest with
    | [] => [[]]
    | w :: ws => if c = ',' then [] :: w :: ws else (c :: w) :: ws

/-- Python s.strip() on a character list: drop leading and trailing
whitespace. -/
def stripChars (l : List Char) : List Char :=
  ((l.dropWhile isPyWhitespace).reverse.dropWhile isPyWhitespace).reverse

/-- Python s.strip() on a string. -/
def pyStrip (s : String) : String :=
  String.mk (stripChars s.data)

/-- Python truthiness of a string: non-empty (line 89 tests
`start_button and input_text`, line 141 tests `if k.strip()`). -/
def pyTruthyStr (s : String) : Bool :=
  !s.data.isEmpty

/-- The comprehension at src/app.py line 141: split on commas, strip each
token, keep the truthy (non-empty) ones, in order. -/
def parseKeywordList (input : String) : List String :=
  (((splitComma input.data).map stripChars).filter (fun w => !w.isEmpty)).map String.mk

/-- Python ", ".join(keywords), the default text shown in each edit box
(src/app.py line 135). -/
def joinKeywords (l : List String) : String :=
  String.intercalate ", " l

/-! ## Operations (button handlers in main, src/app.py lines 89-159) -/

/-- Outcome of one run of the StartAnalysis block (src/app.py lines 89-96):
the session afterwards, whether extractor.extract_keywords was invoked, and
the exception, if any, that propagated out of the run. -/
structure StartAnalysisOutcome where
  session : Session
  extractorCalled : Bool
  raised : Option PyError

/-- src/app.py lines 89-96. The guard is Python truthiness:
`if start_button and input_text`. When the guard holds the extractor is
called; its response resp is passed in explicitly. A raised exception
(.error) propagates before any of the three assignments at lines 92-94
executes, so the session is returned untouched together with the error; on a
normal return the three fields are assigned from the results dict via .get. -/
def runStartAnalysis (s : Session) (start_button : Bool) (input_text : String)
    (resp : Except PyError ExtractResults) : StartAnalysisOutcome :=
  if start_button && pyTruthyStr input_text then
    match resp with
    | .error e => ⟨s, true, some e⟩
    | .ok results =>
        ⟨{ s with
            current_state := some results
            concept_matrix := results.concept_matrix
            seed_keywords := results.seed_keywords },
          true, none⟩
  else ⟨s, false, none⟩

/-- The approve handler body, src/app.py lines 111-112. -/
def approveOp (s : Session) : Session :=
  { s with keywords_approved := true, feedback := some FeedbackAction.approve }

/-- The reject submit handler body, src/app.py lines 119-122: records the
free-text feedback, nothing else. -/
def rejectOp (s : Session) (feedbackText : String) : Session :=
  { s with feedback := some (FeedbackAction.reject feedbackText) }

/-- The text the user left in the three edit boxes. A box the user did not
touch (none) keeps its widget default, the current keywords joined with
", " (src/app.py lines 134-140). -/
structure KeywordEdits where
  problem_purpose : Option String
  object_system : Option String
  environment_field : Option String

/-- src/app.py lines 134-141: for each of the three categories of the current
seed keywords build the edited list from the box text (defaulted when
untouched) via the line-141 comprehension. No validation happens. -/
def editKeywords (sk : SeedKeywords) (edits : KeywordEdits) : SeedKeywords :=
  { problem_purpose :=
      parseKeywordList (edits.problem_purpose.getD (joinKeywords sk.problem_purpose))
    object_system :=
      parseKeywordList (edits.object_system.getD (joinKeywords sk.object_system))
    environment_field :=
      parseKeywordList (edits.environment_field.getD (joinKeywords sk.environment_field)) }

/-- The edit handler body, src/app.py lines 126-148: sets the editing flag and
stages the parsed keywords in the feedback record. sk is the session's current
seed keywords (the branch dereferences st.session_state.seed_keywords). -/
def editOp (s : Session) (sk : SeedKeywords) (edits : KeywordEdits) : Session :=
  { s with
      editing := true
      feedback := some (FeedbackAction.edit (editKeywords sk edits)) }

/-- One rendered search-result entry (src/app.py lines 155-159). The %.2f
float formatting is abstracted: the raw scores are carried. -/
structure RenderedResult where
  header : String
  scenario_score : Float
  problem_score : Float
  link : String

def renderResult (r : SearchResult) : RenderedResult :=
  ⟨"Patent: " ++ r.url, r.user_scenario, r.user_problem, r.url⟩

/-- src/app.py lines 151-159. The guard is
`keywords_approved and current_state.get("final_url")`: Python `and`
short-circuits, so with keywords_approved False nothing is evaluated and
nothing renders; with it True, `current_state.get` raises AttributeError when
current_state is None, and otherwise the entries render exactly when the
final_url key holds a non-empty list. Returns the rendered entries, or the
raised error. -/
def displayFinalResults (s : Session) : Except PyError (List RenderedResult) :=
  if s.keywords_approved then
    match s.current_state with
    | none => .error PyError.attributeError
    | some cs =>
        match cs.final_url with
        | none => .ok []
        | some results =>
            if results.isEmpty then .ok [] else .ok (results.map renderResult)
  else .ok []

/-! ## One user interaction as a step

Each Streamlit rerun executes main top to bottom; at most one button event is
live per rerun. An Action is the live event of one rerun (displayOnly: a rerun
with no live event, only the rendering at lines 99-104 and 151-159). The
approve, reject and edit branches are only reachable when the line-99 guard
`concept_matrix and seed_keywords` holds (both non-None, hence truthy). -/
inductive Action where
  | startAnalysis (start_button : Bool) (input_text : String)
      (resp : Except PyError ExtractResults) : Action
  | approveClick : Action
  | rejectSubmit (feedbackText : String) : Action
  | editSave (edits : KeywordEdits) : Action
  | displayOnly : Action

/-- The session transition of one rerun of main for a given live event. -/
def step (s : Session) (a : Action) : StartAnalysisOutcome :=
  match a with
  | .startAnalysis b t resp => runStartAnalysis s b t resp
  | .approveClick =>
      ⟨if s.concept_matrix.isSome && s.seed_keywords.isSome then approveOp s else s,
        false, none⟩
  | .rejectSubmit t =>
      ⟨if s.concept_matrix.isSome && s.seed_keywords.isSome then rejectOp s t else s,
        false, none⟩
  | .editSave edits =>
      ⟨match s.concept_matrix, s.seed_keywords with
        | some _, some sk => editOp s sk edits
        | _, _ => s,
        false, none⟩
  | .displayOnly => ⟨s, false, none⟩

/-! ## Raw session dictionary and init_session_state (src/app.py lines 49-64)

st.session_state is a dictionary in which a key can be absent outright; the
nullable fields, when present, can still hold None. Absence is the outer
Option, the stored value the inner one. The extractor handle is opaque. -/

structure RawSession where
  extractor : Option Unit
  current_state : Option (Option ExtractResults)
  concept_matrix : Option (Option ConceptMatrix)
  seed_keywords : Option (Option SeedKeywords)
  keywords_approved : Option Bool
  feedback : Option (Option FeedbackAction)
  edited_keywords : Option (Option SeedKeywords)

/-- One `if key not in st.session_state: assign default` statement. -/
def initField {α : Type} (cur : Option α) (default : α) : Option α :=
  match cur with
  | some v => some v
  | none => some default

/-- src/app.py lines 49-64: assign each still-absent key its default; keys
already present keep their value. -/
def init_session_state (s : RawSession) : RawSession :=
  { extractor := initField s.extractor ()
    current_state := initField s.current_state none
    concept_matrix := initField s.concept_matrix none
    seed_keywords := initField s.seed_keywords none
    keywords_approved := initField s.keywords_approved false
    feedback := initField s.feedback none
    edited_keywords := initField s.edited_keywords none }

/-! ## Derived predicates and concrete sample data -/

/-- The invariant of spec section 3: concept matrix and seed keywords are
both present or both absent. -/
def bothOrNeither (s : Session) : Prop :=
  s.concept_matrix.isSome = s.seed_keywords.isSome

/-- An action whose extractor response, if any and successful, conforms to the
extractor contract of spec section 6: a successful extract_keywords return
carries both the concept matrix and the seed keywords. -/
def conformantAction : Action → Prop
  | Action.startAnalysis _ _ (Except.ok r) =>
      r.concept_matrix.isSome = true ∧ r.seed_keywords.isSome = true
  | _ => True

/-- Run a sequence of interactions from a session. -/
def runActions (s : Session) (acts : List Action) : Session :=
  acts.foldl (fun s a => (step s a).session) s

/-- A concrete conformant extractor result used in concrete evaluations. -/
def demoResults : ExtractResults :=
  { concept_matrix := some ⟨"removing contaminants", "filter", "residential water"⟩
    seed_keywords := some ⟨["contaminant removal"], ["filter", "membrane"], ["home"]⟩
    final_url := none }

/-- A session whose keywords have been approved while current_state is still
absent. -/
def approvedEmptySession : Session :=
  { initSession with keywords_approved := true }

/-- Concrete seed keywords for the edit scenario. -/
def demoSeedKeywords : SeedKeywords :=
  ⟨["a"], ["b"], ["c"]⟩

/-- A session holding demoSeedKeywords, as after a successful analysis. -/
def demoEditSession : Session :=
  { initSession with
      concept_matrix := some ⟨"p", "o", "e"⟩
      seed_keywords := some demoSeedKeywords }

/-! ## Helper lemmas about Python strip -/

theorem head_dropWhile_false {α : Type} (p : α → Bool) :
    ∀ (l : List α) (a : α), (l.dropWhile p).head? = some a → p a = false := by
  intro l
  induction l with
  | nil => intro a h; simp [List.dropWhile] at h
  | cons c cs ih =>
      intro a h
      by_cases hp : p c
      · rw [List.dropWhile_cons_of_pos hp] at h
        exact ih a h
      · rw [List.dropWhile_cons_of_neg hp] at h
        simp at h
        subst h
        exact Bool.eq_false_iff.mpr hp

theorem dropWhile_eq_self_of_head {α : Type} (p : α → Bool) (l : List α)
    (h : ∀ a, l.head? = some a → p a = false) : l.dropWhile p = l := by
  cases l with
  | nil => rfl
  | cons c cs =>
      have := h c rfl
      rw [List.dropWhile_cons_of_neg (by simp [this])]

theorem getLast?_dropWhile {α : Type} (p : α → Bool) :
    ∀ l : List α, l.dropWhile p ≠ [] → (l.dropWhile p).getLast? = l.getLast? := by
  intro l
  induction l with
  | nil => intro h; simp [List.dropWhile] at h
  | cons c cs ih =>
      intro h
      by_cases hp : p c
      · rw [List.dropWhile_cons_of_pos hp] at h ⊢
        have hcs : cs ≠ [] := by
          intro hnil; rw [hnil] at h; simp [List.dropWhile] at h
        rw [ih h]
        cases cs with
        | nil => exact absurd rfl hcs
        | cons b bs => rw [List.getLast?_cons_cons]
      · rw [List.dropWhile_cons_of_neg hp]

theorem stripChars_head_false (l : List Char) :
    ∀ a, (stripChars l).head? = some a → isPyWhitespace a = false := by
  intro a h
  unfold stripChars at h
  rw [List.head?_reverse] at h
  have hvne : (l.dropWhile isPyWhitespace).reverse.dropWhile isPyWhitespace ≠ [] := by
    intro hnil
    rw [hnil] at h
    simp at h
  rw [getLast?_dropWhile _ _ hvne, List.getLast?_reverse] at h
  exact head_dropWhile_false _ _ _ h

/-- Python strip is idempotent: stripping an already stripped token changes
nothing. -/
theorem stripChars_idem (l : List Char) : stripChars (stripChars l) = stripChars l := by
  have h1 : (stripChars l).dropWhile isPyWhitespace = stripChars l :=
    dropWhile_eq_self_of_head _ _ (stripChars_head_false l)
  have h2 : (stripChars l).reverse
      = (l.dropWhile isPyWhitespace).reverse.dropWhile isPyWhitespace := by
    show (((l.dropWhile isPyWhitespace).reverse.dropWhile isPyWhitespace).reverse).reverse = _
    rw [List.reverse_reverse]
  calc stripChars (stripChars l)
      = (((stripChars l).dropWhile isPyWhitespace).reverse.dropWhile isPyWhitespace).reverse := rfl
    _ = ((stripChars l).reverse.dropWhile isPyWhitespace).reverse := by rw [h1]
    _ = (((l.dropWhile isPyWhitespace).reverse.dropWhile isPyWhitespace).dropWhile
          isPyWhitespace).reverse := by rw [h2]
    _ = ((l.dropWhile isPyWhitespace).reverse.dropWhile isPyWhitespace).reverse := by
          rw [List.dropWhile_idempotent]
    _ = stripChars l := rfl

/-- Every token produced by the line-141 comprehension is non-empty and fixed
by a further strip. -/
theorem parseKeywordList_mem_spec (s : String) (k : String)
    (hk : k ∈ parseKeywordList s) : k ≠ "" ∧ pyStrip k = k := by
  unfold parseKeywordList at hk
  rw [List.mem_map] at hk
  obtain ⟨w, hw, rfl⟩ := hk
  rw [List.mem_filter] at hw
  obtain ⟨hmem, hne⟩ := hw
  rw [List.mem_map] at hmem
  obtain ⟨w0, _, rfl⟩ := hmem
  constructor
  · intro h
    have hdata : stripChars w0 = [] := congrArg String.data h
    rw [hdata] at hne
    simp at hne
  · show pyStrip (String.mk (stripChars w0)) = String.mk (stripChars w0)
    unfold pyStrip
    rw [show (String.mk (stripChars w0)).data = stripChars w0 from rfl, stripChars_idem]

/-! ## Helper lemmas about init_session_state -/

theorem initField_idem {α : Type} (c : Option α) (d : α) :
    initField (initField c d) d = initField c d := by
  cases c <;> rfl

theorem initField_of_isSome {α : Type} (c : Option α) (d : α) (h : c.isSome) :
    initField c d = c := by
  cases c with
  | none => simp [Option.isSome] at h
  | some v => rfl

/-! ## Claim theorems -/

/-- C1: a StartAnalysis run on non-empty input whose extractor response is
successful (and, per the extractor contract of spec section 6, carries both
the concept matrix and the seed keywords) leaves both fields populated; and
the both-present-or-both-absent invariant holds initially and is preserved by
every interaction whose successful responses conform to that contract. -/
theorem concept_and_seed_set_together :
    (∀ (s : Session) (t : String) (r : ExtractResults),
      pyTruthyStr t = true → r.concept_matrix.isSome = true →
      r.seed_keywords.isSome = true →
        (runStartAnalysis s true t (Except.ok r)).session.concept_matrix.isSome = true
        ∧ (runStartAnalysis s true t (Except.ok r)).session.seed_keywords.isSome = true)
    ∧ bothOrNeither initSession
    ∧ (∀ (s : Session) (a : Action), bothOrNeither s → conformantAction a →
        bothOrNeither (step s a).session) := by
  refine ⟨?_, rfl, ?_⟩
  · intro s t r ht hc hk
    unfold runStartAnalysis
    simp [ht, hc, hk]
  · intro s a hinv hconf
    cases a with
    | startAnalysis b t resp =>
        show bothOrNeither (runStartAnalysis s b t resp).session
        unfold runStartAnalysis
        by_cases hg : (b && pyTruthyStr t) = true
        · simp only [hg, if_true]
          cases resp with
          | error e => exact hinv
          | ok r =>
              obtain ⟨hc, hk⟩ := hconf
              show r.concept_matrix.isSome = r.seed_keywords.isSome
              rw [hc, hk]
        · simp only [hg, if_false]
          exact hinv
    | approveClick =>
        show bothOrNeither _
        by_cases hg : (s.concept_matrix.isSome && s.seed_keywords.isSome) = true <;>
          simp only [step, hg, if_true, if_false] <;> exact hinv
    | rejectSubmit t =>
        show bothOrNeither _
        by_cases hg : (s.concept_matrix.isSome && s.seed_keywords.isSome) = true <;>
          simp only [step, hg, if_true, if_false] <;> exact hinv
    | editSave edits =>
        show bothOrNeither _
        simp only [step]
        cases hc : s.concept_matrix with
        | none => cases hk : s.seed_keywords <;> exact hinv
        | some cm =>
            cases hk : s.seed_keywords with
            | none => exact hinv
            | some sk =>
                show (editOp s sk edits).concept_matrix.isSome
                    = (editOp s sk edits).seed_keywords.isSome
                show s.concept_matrix.isSome = s.seed_keywords.isSome
                exact hinv
    | displayOnly => exact hinv

/-- Witness for C1 at a concrete conformant run. -/
theorem concept_and_seed_set_together_witness :
    (runStartAnalysis initSession true "a water filter" (Except.ok demoResults)).session.concept_matrix.isSome = true
    ∧ (runStartAnalysis initSession true "a water filter" (Except.ok demoResults)).session.seed_keywords.isSome = true :=
  concept_and_seed_set_together.1 initSession "a water filter" demoResults
    (by decide) (by decide) (by decide)

/-- C3: when the StartAnalysis guard holds and the extractor raises, the
exception propagates out of the run before any of the three assignments at
src/app.py lines 92-94 executes: the session is exactly the prior one, the
extractor was invoked, and the raised error is the surfaced outcome of the
run (the hosting framework displays an uncaught exception to the user). -/
theorem start_analysis_failure_atomic (s : Session) (t : String) (e : PyError)
    (ht : pyTruthyStr t = true) :
    (runStartAnalysis s true t (Except.error e)).session = s
    ∧ (runStartAnalysis s true t (Except.error e)).extractorCalled = true
    ∧ (runStartAnalysis s true t (Except.error e)).raised = some e := by
  unfold runStartAnalysis
  simp [ht]

/-- Witness for C3 at a concrete failing run. -/
theorem start_analysis_failure_atomic_witness :
    (runStartAnalysis initSession true "idea" (Except.error (PyError.extractionError "boom"))).session = initSession
    ∧ (runStartAnalysis initSession true "idea" (Except.error (PyError.extractionError "boom"))).extractorCalled = true
    ∧ (runStartAnalysis initSession true "idea" (Except.error (PyError.extractionError "boom"))).raised
        = some (PyError.extractionError "boom") :=
  start_analysis_failure_atomic initSession "idea" (PyError.extractionError "boom") (by decide)

/-- C5 counterexample: a whitespace-only input is truthy in Python, so the
line-89 guard passes, the extractor IS invoked and session state IS mutated,
contradicting the claim that whitespace-only input is rejected without
invoking the extractor. -/
theorem start_analysis_whitespace_not_rejected :
    (runStartAnalysis initSession true " " (Except.ok demoResults)).extractorCalled = true
    ∧ (runStartAnalysis initSession true " " (Except.ok demoResults)).session.current_state.isSome = true := by
  constructor <;> decide

/-- C5 amended: an empty input fails the line-89 truthiness guard, so the
whole block is skipped: the extractor is not invoked, no session field is
mutated and no error is raised. Whitespace-only but non-empty input is not
rejected. -/
theorem start_analysis_empty_input_rejected (s : Session) (b : Bool)
    (resp : Except PyError ExtractResults) :
    runStartAnalysis s b "" resp = ⟨s, false, none⟩ := by
  cases b <;> rfl

/-- C7: Approve is idempotent: any number n of consecutive approve clicks
(n at least 1) has the net effect of one, leaving keywords_approved true and
feedback equal to the approve action. -/
theorem approve_idempotent (s : Session) (n : Nat) (hn : 1 ≤ n) :
    approveOp^[n] s = approveOp s
    ∧ (approveOp^[n] s).keywords_approved = true
    ∧ (approveOp^[n] s).feedback = some FeedbackAction.approve := by
  have key : ∀ m : Nat, approveOp^[m + 1] s = approveOp s := by
    intro m
    induction m with
    | zero => rfl
    | succ k ih =>
        rw [Function.iterate_succ_apply', ih]
        rfl
  obtain ⟨m, rfl⟩ : ∃ m, n = m + 1 := ⟨n - 1, by omega⟩
  refine ⟨key m, ?_, ?_⟩ <;> rw [key m] <;> rfl

/-- Witness for C7: two approve clicks at the fresh session. -/
theorem approve_idempotent_witness :
    approveOp^[2] initSession = approveOp initSession
    ∧ (approveOp^[2] initSession).keywords_approved = true
    ∧ (approveOp^[2] initSession).feedback = some FeedbackAction.approve :=
  approve_idempotent initSession 2 (by decide)

/-- C9: the reject handler body (src/app.py lines 119-122) only records the
feedback record: every other session field is untouched, and a reject
interaction never invokes the extractor. -/
theorem reject_frame (s : Session) (t : String) :
    (rejectOp s t).feedback = some (FeedbackAction.reject t)
    ∧ (rejectOp s t).keywords_approved = s.keywords_approved
    ∧ (rejectOp s t).concept_matrix = s.concept_matrix
    ∧ (rejectOp s t).seed_keywords = s.seed_keywords
    ∧ (rejectOp s t).current_state = s.current_state
    ∧ (rejectOp s t).edited_keywords = s.edited_keywords
    ∧ (rejectOp s t).editing = s.editing
    ∧ (step s (Action.rejectSubmit t)).extractorCalled = false
    ∧ (step s (Action.rejectSubmit t)).raised = none :=
  ⟨rfl, rfl, rfl, rfl, rfl, rfl, rfl, rfl, rfl⟩

/-- C8: keywords_approved is written nowhere but the approve handler: every
non-approve interaction leaves the flag exactly as it was, and from a fresh
session any interaction sequence free of approve clicks leaves it false. -/
theorem keywords_approved_only_via_approve :
    (∀ (s : Session) (a : Action), a ≠ Action.approveClick →
        (step s a).session.keywords_approved = s.keywords_approved)
    ∧ (∀ acts : List Action, (∀ a ∈ acts, a ≠ Action.approveClick) →
        (runActions initSession acts).keywords_approved = false) := by
  have hstep : ∀ (s : Session) (a : Action), a ≠ Action.approveClick →
      (step s a).session.keywords_approved = s.keywords_approved := by
    intro s a h
    cases a with
    | startAnalysis b t resp =>
        show (runStartAnalysis s b t resp).session.keywords_approved = _
        unfold runStartAnalysis
        by_cases hg : (b && pyTruthyStr t) = true
        · simp only [hg, if_true]
          cases resp <;> rfl
        · simp only [hg, if_false]
          rfl
    | approveClick => exact absurd rfl h
    | rejectSubmit t =>
        show (if _ then rejectOp s t else s).keywords_approved = _
        by_cases hg : (s.concept_matrix.isSome && s.seed_keywords.isSome) = true <;>
          simp only [hg, if_true, if_false] <;> rfl
    | editSave edits =>
        simp only [step]
        cases s.concept_matrix <;> cases s.seed_keywords <;> rfl
    | displayOnly => rfl
  refine ⟨hstep, ?_⟩
  have gen : ∀ (acts : List Action) (s : Session),
      (∀ a ∈ acts, a ≠ Action.approveClick) → s.keywords_approved = false →
      (runActions s acts).keywords_approved = false := by
    intro acts
    induction acts with
    | nil => intro s _ hs; exact hs
    | cons a rest ih =>
        intro s hall hs
        show (runActions (step s a).session rest).keywords_approved = false
        refine ih _ (fun b hb => hall b (List.mem_cons_of_mem a hb)) ?_
        rw [hstep s a (hall a (List.mem_cons_self a rest))]
        exact hs
  intro acts hall
  exact gen acts initSession hall rfl

/-- Witness for C8: a display-only interaction leaves the flag unchanged, and
the empty interaction sequence leaves it false. -/
theorem keywords_approved_only_via_approve_witness :
    (step initSession Action.displayOnly).session.keywords_approved
        = initSession.keywords_approved
    ∧ (runActions initSession []).keywords_approved = false :=
  ⟨keywords_approved_only_via_approve.1 initSession Action.displayOnly
      (fun h => Action.noConfusion h),
    keywords_approved_only_via_approve.2 [] (fun a ha => absurd ha (List.not_mem_nil a))⟩

/-- C10: init_session_state only fills absent keys: running it twice equals
running it once, and every key already present keeps its stored value. -/
theorem init_session_state_preserving (s : RawSession) :
    init_session_state (init_session_state s) = init_session_state s
    ∧ (s.extractor.isSome → (init_session_state s).extractor = s.extractor)
    ∧ (s.current_state.isSome → (init_session_state s).current_state = s.current_state)
    ∧ (s.concept_matrix.isSome → (init_session_state s).concept_matrix = s.concept_matrix)
    ∧ (s.seed_keywords.isSome → (init_session_state s).seed_keywords = s.seed_keywords)
    ∧ (s.keywords_approved.isSome →
        (init_session_state s).keywords_approved = s.keywords_approved)
    ∧ (s.feedback.isSome → (init_session_state s).feedback = s.feedback)
    ∧ (s.edited_keywords.isSome →
        (init_session_state s).edited_keywords = s.edited_keywords) := by
  refine ⟨?_, ?_, ?_, ?_, ?_, ?_, ?_, ?_⟩
  · show RawSession.mk _ _ _ _ _ _ _ = RawSession.mk _ _ _ _ _ _ _
    simp only [init_session_state, initField_idem]
  all_goals
    intro h
    exact initField_of_isSome _ _ h

/-- Witness for C10: a fully populated raw session is preserved. -/
theorem init_session_state_preserving_witness :
    (init_session_state (init_session_state (RawSession.mk (some ()) (some none)
        (some none) (some none) (some true) (some none) (some none)))
      = init_session_state (RawSession.mk (some ()) (some none) (some none)
        (some none) (some true) (some none) (some none)))
    ∧ (init_session_state (RawSession.mk (some ()) (some none) (some none)
        (some none) (some true) (some none) (some none))).keywords_approved
      = some true :=
  ⟨(init_session_state_preserving (RawSession.mk (some ()) (some none) (some none)
      (some none) (some true) (some none) (some none))).1,
    (init_session_state_preserving (RawSession.mk (some ()) (some none) (some none)
      (some none) (some true) (some none) (some none))).2.2.2.2.2.1 rfl⟩

/-- C4 counterexample: in the session whose keywords are approved while
current_state is still absent the display precondition fails (there is no
final-results list at all), yet line 151 evaluates None.get and raises
AttributeError instead of rendering nothing. -/
theorem display_final_results_raises_on_missing_state :
    approvedEmptySession.keywords_approved = true
    ∧ approvedEmptySession.current_state = none
    ∧ displayFinalResults approvedEmptySession = Except.error PyError.attributeError :=
  ⟨rfl, rfl, rfl⟩

/-- C4 amended: with keywords_approved false the short-circuiting guard makes
the block render nothing and raise nothing, whatever current_state holds;
with current_state present but carrying no non-empty final_url list it also
renders nothing without error; but with keywords_approved true and
current_state absent, line 151 raises AttributeError. -/
theorem display_final_results_amended (s : Session) :
    (s.keywords_approved = false → displayFinalResults s = Except.ok [])
    ∧ (∀ cs, s.current_state = some cs → cs.final_url = none →
        displayFinalResults s = Except.ok [])
    ∧ (∀ cs, s.current_state = some cs → cs.final_url = some [] →
        displayFinalResults s = Except.ok [])
    ∧ (s.keywords_approved = true → s.current_state = none →
        displayFinalResults s = Except.error PyError.attributeError) := by
  refine ⟨?_, ?_, ?_, ?_⟩
  · intro h
    unfold displayFinalResults
    rw [h]
    rfl
  · intro cs h1 h2
    cases hb : s.keywords_approved <;>
      simp [displayFinalResults, hb, h1, h2]
  · intro cs h1 h2
    cases hb : s.keywords_approved <;>
      simp [displayFinalResults, hb, h1, h2]
  · intro h1 h2
    simp [displayFinalResults, h1, h2]

/-- Witness for C4 amended at concrete sessions. -/
theorem display_final_results_amended_witness :
    displayFinalResults initSession = Except.ok []
    ∧ displayFinalResults approvedEmptySession = Except.error PyError.attributeError :=
  ⟨(display_final_results_amended initSession).1 rfl,
    (display_final_results_amended approvedEmptySession).2.2.2 rfl rfl⟩

/-- C2 failing input, evaluated: editing with the environment_field category
missing from the user input is not rejected; the form falls back to the
widget default (the current keywords joined with a comma) for that category
and the handler sets feedback anyway, both as the raw operation and as a full
interaction step. -/
theorem edit_missing_category_still_sets_feedback :
    (editOp demoEditSession demoSeedKeywords
        (KeywordEdits.mk (some "x, y") (some "z") none)).feedback
      = some (FeedbackAction.edit (SeedKeywords.mk ["x", "y"] ["z"] ["c"]))
    ∧ (step demoEditSession
        (Action.editSave (KeywordEdits.mk (some "x, y") (some "z") none))).session.feedback
      = some (FeedbackAction.edit (SeedKeywords.mk ["x", "y"] ["z"] ["c"])) := by
  constructor <;> decide

/-- C6: the line-141 comprehension splits the box text on commas, strips each
token, drops tokens empty after stripping and keeps the rest in order: every
stored keyword is non-empty and fixed under a further strip, the sample input
"a, b ,, c" yields exactly ["a", "b", "c"], and the edit handler applies this
same parse to each of the three categories. -/
theorem edit_keywords_tokenization :
    (∀ (s k : String), k ∈ parseKeywordList s → k ≠ "" ∧ pyStrip k = k)
    ∧ parseKeywordList "a, b ,, c" = ["a", "b", "c"]
    ∧ (∀ (sk : SeedKeywords) (p o e : String),
        editKeywords sk (KeywordEdits.mk (some p) (some o) (some e))
          = SeedKeywords.mk (parseKeywordList p) (parseKeywordList o)
              (parseKeywordList e)) :=
  ⟨parseKeywordList_mem_spec, by decide, fun sk p o e => rfl⟩

/-- Witness for C6 at a concrete parsed token. -/
theorem edit_keywords_tokenization_witness :
    ("a" : String) ≠ "" ∧ pyStrip "a" = "a" :=
  edit_keywords_tokenization.1 " a , b" "a" (by decide)

end PriorArt
